import Mathlib

/-!
Shallow embedding of the hero data-access service of
`src/src/app/hero.service.ts` (an Angular service issuing GraphQL
queries/mutations through an Apollo gateway) together with the
operation documents it declares, and proofs of the specification
claims about it.

Modelling conventions:
* A GraphQL document (`gql` template) becomes a `GQLDoc`: its kind
  (query/mutation), operation name, declared variables and top-level
  selected fields.
* A call to `apollo.watchQuery` / `apollo.mutate` becomes a
  `Descriptor`: the document plus the concrete variables the service
  binds.  The gateway is a function `Descriptor → GatewayResult`
  (success with a data object, or the rx error channel with an error
  message).
* JavaScript field access on the `data` object is total and yields
  `undefined` for a missing field, so the data object's fields are
  `Option`-valued; indexing `undefined[0]` throws, so the mapping and
  tap steps return `Except String _` whose error is the thrown
  message.
* One emission of the rx pipeline
  `valueChanges.pipe(map(...), tap(...), catchError(handleError(op, default)))`
  becomes `runPipe`, which records the resolved value, the messages
  recorded through the message sink and the gateway calls issued.
-/

/-- Wire-level hero record as it appears in a GraphQL `data` object:
each field may be absent (JS `undefined`). -/
structure HeroRec where
  id : Option Int := none
  name : Option String := none
deriving DecidableEq, Repr

/-- Domain `Hero` record (`{ id: number, name: string }`) handed to the
service by callers. -/
structure Hero where
  id : Int
  name : String
deriving DecidableEq, Repr

/-- A wire record is full when both selected fields are defined. -/
def HeroRec.isFull (r : HeroRec) : Bool :=
  r.id.isSome && r.name.isSome

/-- The wire record carrying exactly a domain hero's fields. -/
def HeroRec.ofHero (h : Hero) : HeroRec :=
  { id := some h.id, name := some h.name }

/-- The `deleteHero` mutation resolves to `bool|int` on the wire. -/
inductive DeleteAck where
  | bool (b : Bool)
  | int (i : Int)
deriving DecidableEq, Repr

/-- Scalar GraphQL variable values used by the service. -/
inductive GQLScalar where
  | int (i : Int)
  | str (s : String)
deriving DecidableEq, Repr

/-- Variable values the service binds: scalars, or one-level input
objects such as `{ name: hero.name }`. -/
inductive GQLValue where
  | scalar (v : GQLScalar)
  | obj (fields : List (String × GQLScalar))
deriving DecidableEq, Repr

/-- Kind of a GraphQL operation document. -/
inductive OpKind where
  | query
  | mutation
deriving DecidableEq, Repr

/-- A variable declared in a document header, e.g. `$id: Int!`
(`required` records the `!`). -/
structure VarDecl where
  varName : String
  varType : String
  required : Bool
deriving DecidableEq, Repr

/-- A GraphQL document: kind, operation name, declared variables and
the top-level fields its selection set requests. -/
structure GQLDoc where
  kind : OpKind
  name : String
  varDecls : List VarDecl
  selections : List String
deriving DecidableEq, Repr

/-- Document `query heroesQuery { heroes { id name } }` -/
def heroesQuery : GQLDoc :=
  { kind := .query, name := "heroesQuery", varDecls := [],
    selections := ["heroes"] }

/-- Document `query heroQuery($id: Int!) { hero(id: $id) { id name } }` -/
def heroQuery : GQLDoc :=
  { kind := .query, name := "heroQuery",
    varDecls := [⟨"id", "Int", true⟩], selections := ["hero"] }

/-- Document `query searchQuery($q: String) { search(q: $q) { id name } }` -/
def searchQuery : GQLDoc :=
  { kind := .query, name := "searchQuery",
    varDecls := [⟨"q", "String", false⟩], selections := ["search"] }

/-- Document `mutation addHero($input: HeroInput) { addHero(input: $input) { id name } }` -/
def addHero : GQLDoc :=
  { kind := .mutation, name := "addHero",
    varDecls := [⟨"input", "HeroInput", false⟩], selections := ["addHero"] }

/-- Document `mutation deleteHero($id: Int!) { deleteHero(id: $id) }` -/
def deleteHero : GQLDoc :=
  { kind := .mutation, name := "deleteHero",
    varDecls := [⟨"id", "Int", true⟩], selections := ["deleteHero"] }

/-- Document `mutation updateHero($id: Int!, $input: HeroInput) { updateHero(id: $id, input: $input) { id name } }` -/
def updateHero : GQLDoc :=
  { kind := .mutation, name := "updateHero",
    varDecls := [⟨"id", "Int", true⟩, ⟨"input", "HeroInput", false⟩],
    selections := ["updateHero"] }

/-- A request descriptor handed to the gateway: the document plus the
variables the call site binds. -/
structure Descriptor where
  doc : GQLDoc
  vars : List (String × GQLValue)
deriving DecidableEq, Repr

/-- The `data` object of a successful result envelope.  Each operation
field may be absent (JS `undefined`); reading an absent field yields
`none`. -/
structure GQLData where
  heroes : Option (List HeroRec) := none
  hero : Option HeroRec := none
  search : Option (List HeroRec) := none
  addHero : Option HeroRec := none
  deleteHero : Option DeleteAck := none
  updateHero : Option HeroRec := none
deriving DecidableEq, Repr

/-- Outcome of one gateway execution: a successful envelope's data, or
the rx error channel carrying `error.message`. -/
inductive GatewayResult where
  | success (d : GQLData)
  | failure (errMsg : String)
deriving DecidableEq, Repr

/-- The gateway: executes a descriptor against the remote endpoint. -/
def Gateway : Type := Descriptor → GatewayResult

/-- Message thrown by JS when evaluating `undefined[0]`
(`result.data.heroes[0]` with no `heroes` field). -/
def undefinedIndexError : String := "Cannot read property '0' of undefined"

/-- Message thrown by JS when evaluating `undefined.id`
(`hero.id` in a tap when the mapped value is `undefined`). -/
def undefinedIdError : String := "Cannot read property 'id' of undefined"

/-- Observable outcome of one emission of an operation: the resolved
value, the messages recorded through the message sink, and the gateway
calls issued. -/
structure OpOutcome (α : Type) where
  value : α
  logs : List String
  calls : List Descriptor
deriving DecidableEq, Repr

/-- Descriptor built by `getHeroes()`. -/
def heroesDescriptor : Descriptor := ⟨heroesQuery, []⟩

/-- Descriptor built by `getHeroNo404(id)`: the `heroQuery` document
with no variables bound (the call site passes only `{query: heroQuery}`). -/
def heroNo404Descriptor : Descriptor := ⟨heroQuery, []⟩

/-- Descriptor built by `getHero(id)`. -/
def heroDescriptor (id : Int) : Descriptor :=
  ⟨heroQuery, [("id", .scalar (.int id))]⟩

/-- Descriptor built by `searchHeroes(term)` for a non-blank term. -/
def searchDescriptor (term : String) : Descriptor :=
  ⟨searchQuery, [("q", .scalar (.str term))]⟩

/-- Descriptor built by `addHero(hero)`. -/
def addHeroDescriptor (hero : Hero) : Descriptor :=
  ⟨addHero, [("input", .obj [("name", .str hero.name)])]⟩

/-- Descriptor built by `deleteHero` for the id it extracts. -/
def deleteHeroDescriptor (id : Int) : Descriptor :=
  ⟨deleteHero, [("id", .scalar (.int id))]⟩

/-- Descriptor built by `updateHero(hero)`. -/
def updateHeroDescriptor (hero : Hero) : Descriptor :=
  ⟨updateHero, [("id", .scalar (.int hero.id)),
    ("input", .obj [("name", .str hero.name)])]⟩

/-- Model of JS `String.prototype.trim()`: strips leading and trailing
whitespace characters. -/
def strTrim (s : String) : String :=
  ⟨((s.data.dropWhile Char.isWhitespace).reverse.dropWhile
      Char.isWhitespace).reverse⟩

/-- Argument of `deleteHero(hero: Hero | number)`. -/
inductive HeroOrId where
  | hero (h : Hero)
  | num (i : Int)
deriving DecidableEq, Repr

namespace HeroService

/-- Method `private log(message)`: records `'HeroService: ' + message` with
the `MessageService` sink. -/
def log (message : String) : String := "HeroService: " ++ message

/-- One emission of
`gateway(desc).pipe(map(mapStep), tap(tapStep), catchError(handleError(operation, default)))`:
any error from the gateway call, the mapping step or the tap step is
intercepted by `handleError`, which records
`"<operation> failed: <error.message>"` and resolves with the supplied
default (`of(result as T)`). -/
def runPipe {α : Type} (dfault : α) (operation : String) (desc : Descriptor)
    (gw : Gateway) (mapStep : GQLData → Except String α)
    (tapStep : α → Except String String) : OpOutcome α :=
  match gw desc with
  | .failure e => ⟨dfault, [log (operation ++ " failed: " ++ e)], [desc]⟩
  | .success d =>
    match mapStep d with
    | .error e => ⟨dfault, [log (operation ++ " failed: " ++ e)], [desc]⟩
    | .ok a =>
      match tapStep a with
      | .error e => ⟨dfault, [log (operation ++ " failed: " ++ e)], [desc]⟩
      | .ok m => ⟨a, [log m], [desc]⟩

/-- Method `getHeroes()`: `watchQuery({query: heroesQuery})`, maps
`result.data.heroes`, logs `fetched heroes`, recovers with `[]`. -/
def getHeroes (gw : Gateway) : OpOutcome (Option (List HeroRec)) :=
  runPipe (some []) "getHeroes" heroesDescriptor gw
    (fun d => .ok d.heroes)
    (fun _ => .ok "fetched heroes")

/-- Method `getHeroNo404(id)`: `watchQuery({query: heroQuery})` with NO
variables, maps `result.data.heroes[0]` (throws when the data has no
`heroes` field), logs fetched/did-not-find, recovers with `undefined`. -/
def getHeroNo404 (gw : Gateway) (id : Int) : OpOutcome (Option HeroRec) :=
  runPipe none ("getHero id=" ++ toString id) heroNo404Descriptor gw
    (fun d =>
      match d.heroes with
      | none => .error undefinedIndexError
      | some hs => .ok hs.head?)
    (fun h =>
      .ok ((if h.isSome then "fetched" else "did not find")
        ++ " hero id=" ++ toString id))

/-- Method `getHero(id)`: `watchQuery({query: heroQuery, variables: {id}})`,
maps `result.data.hero`, logs fetched/did-not-find, recovers with
`undefined`. -/
def getHero (gw : Gateway) (id : Int) : OpOutcome (Option HeroRec) :=
  runPipe none ("getHero id=" ++ toString id) (heroDescriptor id) gw
    (fun d => .ok d.hero)
    (fun h =>
      .ok ((if h.isSome then "fetched" else "did not find")
        ++ " hero id=" ++ toString id))

/-- Method `searchHeroes(term)`: if `!term.trim()` returns `of([])` without
touching the gateway; otherwise
`watchQuery({query: searchQuery, variables: {q: term}})`, maps
`result.data.search`, logs found-matching, recovers with `[]`. -/
def searchHeroes (gw : Gateway) (term : String) :
    OpOutcome (Option (List HeroRec)) :=
  if strTrim term = "" then ⟨some [], [], []⟩
  else
    runPipe (some []) "searchHeroes" (searchDescriptor term) gw
      (fun d => .ok d.search)
      (fun _ => .ok ("found heroes matching \"" ++ term ++ "\""))

/-- Method `addHero(hero)`: `mutate({mutation: addHero, variables: {input: {name}}})`,
maps `result.data.addHero`, logs `added hero w/ id=...` (the tap reads
`hero.id` and throws when the mapped value is `undefined`), recovers
with `undefined`. -/
def addHero (gw : Gateway) (hero : Hero) : OpOutcome (Option HeroRec) :=
  runPipe none "addHero" (addHeroDescriptor hero) gw
    (fun d => .ok d.addHero)
    (fun h =>
      match h with
      | none => .error undefinedIdError
      | some r =>
        .ok ("added hero w/ id="
          ++ (match r.id with | none => "undefined" | some i => toString i)))

/-- Method `deleteHero(hero: Hero | number)`: extracts
`id = typeof hero === 'number' ? hero : hero.id`, then
`mutate({mutation: deleteHero, variables: {id}})`, maps
`result.data.deleteHero`, logs `deleted hero id=...`, recovers with
`undefined`. -/
def deleteHero (gw : Gateway) (hero : HeroOrId) : OpOutcome (Option DeleteAck) :=
  let id := match hero with | .num n => n | .hero h => h.id
  runPipe none "deleteHero" (deleteHeroDescriptor id) gw
    (fun d => .ok d.deleteHero)
    (fun _ => .ok ("deleted hero id=" ++ toString id))

/-- Method `updateHero(hero)`: `mutate({mutation: updateHero, variables: {id, input: {name}}})`,
maps `result.data.updateHero`, logs `updated hero id=...`, and recovers
through `handleError<Hero>('addHero')` — the source passes the literal
`'addHero'` as the operation name here. -/
def updateHero (gw : Gateway) (hero : Hero) : OpOutcome (Option HeroRec) :=
  runPipe none "addHero" (updateHeroDescriptor hero) gw
    (fun d => .ok d.updateHero)
    (fun _ => .ok ("updated hero id=" ++ toString hero.id))

end HeroService

/-- Identifier extracted by `deleteHero` from its `Hero | number`
argument: `typeof hero === 'number' ? hero : hero.id`. -/
def HeroOrId.toId : HeroOrId → Int
  | .hero h => h.id
  | .num i => i

/-- A data object is conformant when every hero record it carries (in
any of the record-valued operation fields) has both `id` and `name`
defined. -/
def GQLData.conformant (d : GQLData) : Bool :=
  (match d.heroes with | none => true | some hs => hs.all HeroRec.isFull) &&
  (match d.hero with | none => true | some r => r.isFull) &&
  (match d.search with | none => true | some hs => hs.all HeroRec.isFull) &&
  (match d.addHero with | none => true | some r => r.isFull) &&
  (match d.updateHero with | none => true | some r => r.isFull)

/-- Gateway test double that always fails with message `err`. -/
def failGW : Gateway := fun _ => .failure "err"

/-- Data object with no operation field present. -/
def emptyData : GQLData := {}

/-- Gateway test double that succeeds with an empty data object. -/
def noHeroesGW : Gateway := fun _ => .success emptyData

/-- A full wire record used by concrete witnesses. -/
def sampleHero : HeroRec := { id := some 11, name := some "Dr Nice" }

/-- Fully populated conformant data object. -/
def fullData : GQLData :=
  { heroes := some [sampleHero], hero := some sampleHero,
    search := some [sampleHero], addHero := some sampleHero,
    deleteHero := some (.int 11), updateHero := some sampleHero }

/-- Gateway test double that always succeeds with `fullData`. -/
def okGW : Gateway := fun _ => .success fullData

/-- Gateway test double whose data has only the `hero` field, matching
the declared wire shape of `heroQuery`. -/
def heroOnlyGW : Gateway := fun _ => .success { hero := some sampleHero }

theorem runPipe_calls {α : Type} (dfault : α) (operation : String)
    (desc : Descriptor) (gw : Gateway) (mapStep : GQLData → Except String α)
    (tapStep : α → Except String String) :
    (HeroService.runPipe dfault operation desc gw mapStep tapStep).calls
      = [desc] := by
  unfold HeroService.runPipe
  split
  · rfl
  · split
    · rfl
    · split
      · rfl
      · rfl

theorem log_data_eq (m : String) :
    (HeroService.log m).data = "HeroService: ".data ++ m.data := rfl

theorem log_service_start (m : String) :
    "HeroService: ".data <+: (HeroService.log m).data :=
  ⟨m.data, (log_data_eq m).symm⟩

theorem runPipe_logs_shape {α : Type} (dfault : α) (operation : String)
    (desc : Descriptor) (gw : Gateway) (mapStep : GQLData → Except String α)
    (tapStep : α → Except String String) :
    ∃ s, (HeroService.runPipe dfault operation desc gw mapStep tapStep).logs
      = [HeroService.log s] := by
  unfold HeroService.runPipe
  split
  · exact ⟨_, rfl⟩
  · split
    · exact ⟨_, rfl⟩
    · split
      · exact ⟨_, rfl⟩
      · exact ⟨_, rfl⟩

theorem runPipe_logs_start {α : Type} (dfault : α) (operation : String)
    (desc : Descriptor) (gw : Gateway) (mapStep : GQLData → Except String α)
    (tapStep : α → Except String String) :
    ∀ m ∈ (HeroService.runPipe dfault operation desc gw mapStep tapStep).logs,
      "HeroService: ".data <+: m.data := by
  obtain ⟨s, hs⟩ := runPipe_logs_shape dfault operation desc gw mapStep tapStep
  intro m hm
  rw [hs] at hm
  simp only [List.mem_singleton] at hm
  subst hm
  exact log_service_start s

theorem conformant_heroes {d : GQLData} (h : d.conformant = true)
    {hs : List HeroRec} (hh : d.heroes = some hs) :
    hs.all HeroRec.isFull = true := by
  simp only [GQLData.conformant, hh, Bool.and_eq_true] at h
  exact h.1.1.1.1

theorem conformant_hero {d : GQLData} (h : d.conformant = true)
    {r : HeroRec} (hh : d.hero = some r) : r.isFull = true := by
  simp only [GQLData.conformant, hh, Bool.and_eq_true] at h
  exact h.1.1.1.2

theorem conformant_search {d : GQLData} (h : d.conformant = true)
    {hs : List HeroRec} (hh : d.search = some hs) :
    hs.all HeroRec.isFull = true := by
  simp only [GQLData.conformant, hh, Bool.and_eq_true] at h
  exact h.1.1.2

theorem conformant_addHero {d : GQLData} (h : d.conformant = true)
    {r : HeroRec} (hh : d.addHero = some r) : r.isFull = true := by
  simp only [GQLData.conformant, hh, Bool.and_eq_true] at h
  exact h.1.2

theorem conformant_updateHero {d : GQLData} (h : d.conformant = true)
    {r : HeroRec} (hh : d.updateHero = some r) : r.isFull = true := by
  simp only [GQLData.conformant, hh, Bool.and_eq_true] at h
  exact h.2

/-- C3: for every search term that is empty or whitespace-only,
`searchHeroes(term)` resolves to the empty sequence, records no
message and issues zero gateway calls (no descriptor is built). -/
theorem searchHeroes_blank_short_circuits (gw : Gateway) (term : String)
    (h : strTrim term = "") :
    HeroService.searchHeroes gw term
      = { value := some [], logs := [], calls := [] } := by
  simp [HeroService.searchHeroes, h]

/-- Witness for C3 at the whitespace-only term `"  "`. -/
theorem searchHeroes_blank_short_circuits_w :
    HeroService.searchHeroes failGW "  "
      = { value := some [], logs := [], calls := [] } :=
  searchHeroes_blank_short_circuits failGW "  " (by decide)

/-- C4: for every search term with at least one non-whitespace
character, `searchHeroes(term)` issues exactly one gateway call, whose
descriptor is the `searchQuery` document with the term bound unchanged
as the `q` variable. -/
theorem searchHeroes_nonblank_one_call (gw : Gateway) (term : String)
    (h : strTrim term ≠ "") :
    (HeroService.searchHeroes gw term).calls = [searchDescriptor term] ∧
    (searchDescriptor term).vars
      = [("q", GQLValue.scalar (.str term))] := by
  constructor
  · unfold HeroService.searchHeroes
    rw [if_neg h]
    exact runPipe_calls _ _ _ _ _ _
  · rfl

/-- Witness for C4 at the term `"ni ce"`. -/
theorem searchHeroes_nonblank_one_call_w :
    (HeroService.searchHeroes failGW "ni ce").calls
      = [searchDescriptor "ni ce"] ∧
    (searchDescriptor "ni ce").vars
      = [("q", GQLValue.scalar (.str "ni ce"))] :=
  searchHeroes_nonblank_one_call failGW "ni ce" (by decide)

/-- C9: `deleteHero(hero)` and `deleteHero(hero.id)` build the same
mutation descriptor (same `deleteHero` document, same `id` variable),
so against any gateway the two call forms produce identical outcomes:
same resolved value, same messages, same calls. -/
theorem deleteHero_call_forms_agree (gw : Gateway) (h : Hero) :
    (HeroService.deleteHero gw (.hero h)).calls
      = [deleteHeroDescriptor h.id] ∧
    HeroService.deleteHero gw (.hero h)
      = HeroService.deleteHero gw (.num h.id) := by
  exact ⟨runPipe_calls _ _ _ _ _ _, rfl⟩

/-- C2 (code bug): a failing `updateHero` records exactly one
diagnostic, but the message is labelled `addHero` — the source passes
the literal `'addHero'` to `handleError` inside `updateHero` — so the
recorded message does not contain the failed operation's name
`updateHero`. -/
theorem updateHero_failure_mislabelled :
    (HeroService.updateHero failGW ⟨11, "Dr Nice"⟩).logs
      = ["HeroService: addHero failed: err"] ∧
    ¬ ("updateHero".data <:+: "HeroService: addHero failed: err".data) := by
  exact ⟨by decide, by decide⟩

/-- C5: for every id `i` whose record exists on the server — the
gateway answers the `getHero(i)` descriptor with a data object whose
`hero` field is a record with id `i` — `getHero(i)` resolves to that
record, whose id equals `i`. -/
theorem getHero_resolves_matching_id (gw : Gateway) (i : Int)
    (d : GQLData) (r : HeroRec)
    (hgw : gw (heroDescriptor i) = .success d)
    (hd : d.hero = some r) (hid : r.id = some i) :
    (HeroService.getHero gw i).value = some r ∧ r.id = some i := by
  refine ⟨?_, hid⟩
  simp [HeroService.getHero, HeroService.runPipe, hgw, hd]

/-- Witness for C5 at id 11 against `okGW`. -/
theorem getHero_resolves_matching_id_w :
    (HeroService.getHero okGW 11).value = some sampleHero ∧
    sampleHero.id = some 11 :=
  getHero_resolves_matching_id okGW 11 fullData sampleHero rfl rfl rfl

/-- C6: round-trip — for every Hero `h`, against a gateway whose
`updateHero` mutation echoes back the `{id, name}` record it was sent,
`updateHero(h)` resolves to the wire record carrying exactly `h`'s
fields, i.e. a record structurally equal to the input. -/
theorem updateHero_roundtrip (gw : Gateway) (h : Hero) (d : GQLData)
    (hgw : gw (updateHeroDescriptor h) = .success d)
    (hecho : d.updateHero = some (HeroRec.ofHero h)) :
    (HeroService.updateHero gw h).value = some (HeroRec.ofHero h) ∧
    (HeroRec.ofHero h).id = some h.id ∧
    (HeroRec.ofHero h).name = some h.name := by
  refine ⟨?_, rfl, rfl⟩
  simp [HeroService.updateHero, HeroService.runPipe, hgw, hecho]

/-- Witness for C6 at `⟨11, "Dr Nice"⟩` against the echoing `okGW`. -/
theorem updateHero_roundtrip_w :
    (HeroService.updateHero okGW ⟨11, "Dr Nice"⟩).value
      = some (HeroRec.ofHero ⟨11, "Dr Nice"⟩) ∧
    (HeroRec.ofHero ⟨11, "Dr Nice"⟩).id = some (11 : Int) ∧
    (HeroRec.ofHero ⟨11, "Dr Nice"⟩).name = some "Dr Nice" :=
  updateHero_roundtrip okGW ⟨11, "Dr Nice"⟩ fullData rfl rfl

/-- C1: for every operation, when its underlying gateway call fails —
or, for `getHeroNo404`, when the result-mapping step throws — the
operation resolves with its documented default (`[]` for
`getHeroes`/`searchHeroes`, the absent marker for the single-record
operations) instead of propagating the error; in particular a
`deleteHero` whose gateway call fails (e.g. on a non-existent id)
resolves to the absent marker rather than throwing. -/
theorem failures_degrade_to_default (e : String) :
    (∀ gw : Gateway, gw heroesDescriptor = .failure e →
      (HeroService.getHeroes gw).value = some []) ∧
    (∀ (gw : Gateway) (i : Int), gw heroNo404Descriptor = .failure e →
      (HeroService.getHeroNo404 gw i).value = none) ∧
    (∀ (gw : Gateway) (i : Int), gw (heroDescriptor i) = .failure e →
      (HeroService.getHero gw i).value = none) ∧
    (∀ (gw : Gateway) (t : String), gw (searchDescriptor t) = .failure e →
      (HeroService.searchHeroes gw t).value = some []) ∧
    (∀ (gw : Gateway) (h : Hero), gw (addHeroDescriptor h) = .failure e →
      (HeroService.addHero gw h).value = none) ∧
    (∀ (gw : Gateway) (x : HeroOrId),
      gw (deleteHeroDescriptor x.toId) = .failure e →
      (HeroService.deleteHero gw x).value = none) ∧
    (∀ (gw : Gateway) (h : Hero), gw (updateHeroDescriptor h) = .failure e →
      (HeroService.updateHero gw h).value = none) ∧
    (∀ (gw : Gateway) (i : Int) (d : GQLData),
      gw heroNo404Descriptor = .success d → d.heroes = none →
      (HeroService.getHeroNo404 gw i).value = none) := by
  refine ⟨?_, ?_, ?_, ?_, ?_, ?_, ?_, ?_⟩
  · intro gw hg
    simp [HeroService.getHeroes, HeroService.runPipe, hg]
  · intro gw i hg
    simp [HeroService.getHeroNo404, HeroService.runPipe, hg]
  · intro gw i hg
    simp [HeroService.getHero, HeroService.runPipe, hg]
  · intro gw t hg
    by_cases ht : strTrim t = ""
    · simp [HeroService.searchHeroes, ht]
    · unfold HeroService.searchHeroes
      rw [if_neg ht]
      simp [HeroService.runPipe, hg]
  · intro gw h hg
    simp [HeroService.addHero, HeroService.runPipe, hg]
  · intro gw x hg
    cases x with
    | hero h =>
      simp only [HeroOrId.toId] at hg
      simp [HeroService.deleteHero, HeroService.runPipe, hg]
    | num i =>
      simp only [HeroOrId.toId] at hg
      simp [HeroService.deleteHero, HeroService.runPipe, hg]
  · intro gw h hg
    simp [HeroService.updateHero, HeroService.runPipe, hg]
  · intro gw i d hg hd
    simp [HeroService.getHeroNo404, HeroService.runPipe, hg, hd]

/-- Witness for C1: each conjunct at a concrete failing (or, for the
last one, heroes-less) gateway. -/
theorem failures_degrade_to_default_w :
    (HeroService.getHeroes failGW).value = some [] ∧
    (HeroService.getHeroNo404 failGW 11).value = none ∧
    (HeroService.getHero failGW 11).value = none ∧
    (HeroService.searchHeroes failGW "nice").value = some [] ∧
    (HeroService.addHero failGW ⟨11, "Dr Nice"⟩).value = none ∧
    (HeroService.deleteHero failGW (.num 13)).value = none ∧
    (HeroService.updateHero failGW ⟨11, "Dr Nice"⟩).value = none ∧
    (HeroService.getHeroNo404 noHeroesGW 7).value = none := by
  obtain ⟨h1, h2, h3, h4, h5, h6, h7, h8⟩ := failures_degrade_to_default "err"
  exact ⟨h1 failGW rfl, h2 failGW 11 rfl, h3 failGW 11 rfl,
    h4 failGW "nice" rfl, h5 failGW ⟨11, "Dr Nice"⟩ rfl,
    h6 failGW (.num 13) rfl, h7 failGW ⟨11, "Dr Nice"⟩ rfl,
    h8 noHeroesGW 7 emptyData rfl rfl⟩

/-- C8: for every id and every successful envelope whose data conforms
to the declared wire shape of `heroQuery` (a `hero` record present, no
`heroes` field), `getHeroNo404(id)` resolves to the absent marker
through the recovery path — its mapping step reads
`result.data.heroes[0]`, a field its query never selects, and throws —
and the descriptor it issues binds no variables even though `heroQuery`
declares the required `$id: Int!`. -/
theorem getHeroNo404_misreads_query (gw : Gateway) (i : Int)
    (d : GQLData) (r : HeroRec)
    (hgw : gw heroNo404Descriptor = .success d)
    (_hhero : d.hero = some r) (hnoheroes : d.heroes = none) :
    (HeroService.getHeroNo404 gw i).value = none ∧
    (HeroService.getHeroNo404 gw i).logs
      = [HeroService.log ("getHero id=" ++ toString i ++ " failed: "
          ++ undefinedIndexError)] ∧
    (HeroService.getHeroNo404 gw i).calls = [heroNo404Descriptor] ∧
    heroNo404Descriptor.vars = [] ∧
    heroQuery.varDecls = [⟨"id", "Int", true⟩] ∧
    heroQuery.selections = ["hero"] := by
  refine ⟨?_, ?_, ?_, rfl, rfl, rfl⟩ <;>
    simp [HeroService.getHeroNo404, HeroService.runPipe, hgw, hnoheroes]

/-- Witness for C8 at id 7 against a gateway whose data carries only a
`hero` record. -/
theorem getHeroNo404_misreads_query_w :
    (HeroService.getHeroNo404 heroOnlyGW 7).value = none ∧
    (HeroService.getHeroNo404 heroOnlyGW 7).logs
      = [HeroService.log ("getHero id=" ++ toString (7 : Int)
          ++ " failed: " ++ undefinedIndexError)] ∧
    (HeroService.getHeroNo404 heroOnlyGW 7).calls = [heroNo404Descriptor] ∧
    heroNo404Descriptor.vars = [] ∧
    heroQuery.varDecls = [⟨"id", "Int", true⟩] ∧
    heroQuery.selections = ["hero"] :=
  getHeroNo404_misreads_query heroOnlyGW 7 { hero := some sampleHero }
    sampleHero rfl rfl rfl

/-- C10: every message the service records through the message sink —
success diagnostics and failure diagnostics from the recovery policy
alike, across all seven operations — starts with the literal prefix
`"HeroService: "`, because every recording goes through `log`. -/
theorem all_messages_have_service_start (gw : Gateway) (i : Int)
    (t : String) (h : Hero) (x : HeroOrId) :
    (∀ m ∈ (HeroService.getHeroes gw).logs,
      "HeroService: ".data <+: m.data) ∧
    (∀ m ∈ (HeroService.getHeroNo404 gw i).logs,
      "HeroService: ".data <+: m.data) ∧
    (∀ m ∈ (HeroService.getHero gw i).logs,
      "HeroService: ".data <+: m.data) ∧
    (∀ m ∈ (HeroService.searchHeroes gw t).logs,
      "HeroService: ".data <+: m.data) ∧
    (∀ m ∈ (HeroService.addHero gw h).logs,
      "HeroService: ".data <+: m.data) ∧
    (∀ m ∈ (HeroService.deleteHero gw x).logs,
      "HeroService: ".data <+: m.data) ∧
    (∀ m ∈ (HeroService.updateHero gw h).logs,
      "HeroService: ".data <+: m.data) := by
  refine ⟨?_, ?_, ?_, ?_, ?_, ?_, ?_⟩
  · exact runPipe_logs_start _ _ _ _ _ _
  · exact runPipe_logs_start _ _ _ _ _ _
  · exact runPipe_logs_start _ _ _ _ _ _
  · by_cases ht : strTrim t = ""
    · intro m hm
      simp [HeroService.searchHeroes, ht] at hm
    · unfold HeroService.searchHeroes
      rw [if_neg ht]
      exact runPipe_logs_start _ _ _ _ _ _
  · exact runPipe_logs_start _ _ _ _ _ _
  · exact runPipe_logs_start _ _ _ _ _ _
  · exact runPipe_logs_start _ _ _ _ _ _

/-- Witness for C10: the success diagnostic of `getHeroes` against
`okGW` carries the prefix. -/
theorem all_messages_have_service_start_w :
    "HeroService: ".data <+: ("HeroService: fetched heroes" : String).data := by
  refine (all_messages_have_service_start okGW 1 "x" ⟨1, "A"⟩ (.num 1)).1
    "HeroService: fetched heroes" ?_
  decide

/-- C7: against any gateway whose successful data objects are
conformant — every hero record they carry has both `id` and `name`
defined, and the fields selected by the listing and search queries are
present — every record-producing operation resolves to either full
records (a sequence of full records for `getHeroes`/`searchHeroes`, a
full single record otherwise) or its documented absence sentinel, and
never exposes a partial record. -/
theorem resolved_records_are_full (gw : Gateway)
    (hconf : ∀ (dsc : Descriptor) (d : GQLData), gw dsc = .success d →
      d.conformant = true ∧
      (dsc.doc = heroesQuery → d.heroes.isSome = true) ∧
      (dsc.doc = searchQuery → d.search.isSome = true)) :
    (∃ hs, (HeroService.getHeroes gw).value = some hs ∧
      hs.all HeroRec.isFull = true) ∧
    (∀ (i : Int) (r : HeroRec),
      (HeroService.getHeroNo404 gw i).value = some r → r.isFull = true) ∧
    (∀ (i : Int) (r : HeroRec),
      (HeroService.getHero gw i).value = some r → r.isFull = true) ∧
    (∀ t, ∃ hs, (HeroService.searchHeroes gw t).value = some hs ∧
      hs.all HeroRec.isFull = true) ∧
    (∀ (h : Hero) (r : HeroRec),
      (HeroService.addHero gw h).value = some r → r.isFull = true) ∧
    (∀ (h : Hero) (r : HeroRec),
      (HeroService.updateHero gw h).value = some r → r.isFull = true) := by
  refine ⟨?_, ?_, ?_, ?_, ?_, ?_⟩
  · cases hg : gw heroesDescriptor with
    | success d =>
      obtain ⟨hc, hpres, -⟩ := hconf heroesDescriptor d hg
      obtain ⟨hs, hhs⟩ := Option.isSome_iff_exists.mp (hpres rfl)
      refine ⟨hs, ?_, conformant_heroes hc hhs⟩
      simp [HeroService.getHeroes, HeroService.runPipe, hg, hhs]
    | failure e =>
      exact ⟨[], by simp [HeroService.getHeroes, HeroService.runPipe, hg], rfl⟩
  · intro i r hv
    cases hg : gw heroNo404Descriptor with
    | success d =>
      obtain ⟨hc, -, -⟩ := hconf heroNo404Descriptor d hg
      cases hh : d.heroes with
      | some hs =>
        have hv' : hs.head? = some r := by
          simpa [HeroService.getHeroNo404, HeroService.runPipe, hg, hh]
            using hv
        exact List.all_eq_true.mp (conformant_heroes hc hh) r
          (List.mem_of_mem_head? hv')
      | none =>
        exact absurd hv (by
          simp [HeroService.getHeroNo404, HeroService.runPipe, hg, hh])
    | failure e =>
      exact absurd hv (by
        simp [HeroService.getHeroNo404, HeroService.runPipe, hg])
  · intro i r hv
    cases hg : gw (heroDescriptor i) with
    | success d =>
      obtain ⟨hc, -, -⟩ := hconf (heroDescriptor i) d hg
      have hv' : d.hero = some r := by
        simpa [HeroService.getHero, HeroService.runPipe, hg] using hv
      exact conformant_hero hc hv'
    | failure e =>
      exact absurd hv (by simp [HeroService.getHero, HeroService.runPipe, hg])
  · intro t
    by_cases ht : strTrim t = ""
    · exact ⟨[], by simp [HeroService.searchHeroes, ht], rfl⟩
    · cases hg : gw (searchDescriptor t) with
      | success d =>
        obtain ⟨hc, -, hpres⟩ := hconf (searchDescriptor t) d hg
        obtain ⟨hs, hhs⟩ := Option.isSome_iff_exists.mp (hpres rfl)
        refine ⟨hs, ?_, conformant_search hc hhs⟩
        unfold HeroService.searchHeroes
        rw [if_neg ht]
        simp [HeroService.runPipe, hg, hhs]
      | failure e =>
        refine ⟨[], ?_, rfl⟩
        unfold HeroService.searchHeroes
        rw [if_neg ht]
        simp [HeroService.runPipe, hg]
  · intro h r hv
    cases hg : gw (addHeroDescriptor h) with
    | success d =>
      obtain ⟨hc, -, -⟩ := hconf (addHeroDescriptor h) d hg
      cases hh : d.addHero with
      | some r0 =>
        have hv' : r0 = r := by
          simpa [HeroService.addHero, HeroService.runPipe, hg, hh] using hv
        subst hv'
        exact conformant_addHero hc hh
      | none =>
        exact absurd hv (by
          simp [HeroService.addHero, HeroService.runPipe, hg, hh])
    | failure e =>
      exact absurd hv (by simp [HeroService.addHero, HeroService.runPipe, hg])
  · intro h r hv
    cases hg : gw (updateHeroDescriptor h) with
    | success d =>
      obtain ⟨hc, -, -⟩ := hconf (updateHeroDescriptor h) d hg
      have hv' : d.updateHero = some r := by
        simpa [HeroService.updateHero, HeroService.runPipe, hg] using hv
      exact conformant_updateHero hc hv'
    | failure e =>
      exact absurd hv (by
        simp [HeroService.updateHero, HeroService.runPipe, hg])

/-- Witness for C7 against the conformant gateway `okGW`. -/
theorem resolved_records_are_full_w :
    (∃ hs, (HeroService.getHeroes okGW).value = some hs ∧
      hs.all HeroRec.isFull = true) ∧
    (∀ (i : Int) (r : HeroRec),
      (HeroService.getHeroNo404 okGW i).value = some r → r.isFull = true) ∧
    (∀ (i : Int) (r : HeroRec),
      (HeroService.getHero okGW i).value = some r → r.isFull = true) ∧
    (∀ t, ∃ hs, (HeroService.searchHeroes okGW t).value = some hs ∧
      hs.all HeroRec.isFull = true) ∧
    (∀ (h : Hero) (r : HeroRec),
      (HeroService.addHero okGW h).value = some r → r.isFull = true) ∧
    (∀ (h : Hero) (r : HeroRec),
      (HeroService.updateHero okGW h).value = some r → r.isFull = true) := by
  refine resolved_records_are_full okGW ?_
  intro dsc d hh
  injection hh with h'
  subst h'
  exact ⟨by decide, fun _ => by decide, fun _ => by decide⟩
